import Mathlib

/-!
Shallow embedding of the session lifecycle of `moviedb-api`
(`src/server/controllers/movie-db.js`), for checking the specification's
claims about login, refresh, logout and session validation.

Conventions of the embedding:
* Machine numbers are `Int`/`Nat`; timestamps are whole milliseconds or
  whole seconds of Unix epoch as in the source.
* The Sequelize `AppUser` table is a `List AppUser`; `findOne`,
  `findByPk`, `findOrCreate` and `update ... where` are translated to
  list operations that mirror SQL semantics (first match, map-update).
* A signed JWT is represented as its payload together with the secret it
  was signed with; signature verification succeeds exactly when that
  secret equals the verifier's secret, and malformed/absent tokens are
  `none`.  This models `jsonwebtoken`'s `sign`/`verify` contract.
* `components.Common.hmac` lives in `server/components/common.js`, which
  is not part of the sources here; it is kept abstract as a function
  field of `Components`.  Claims that need the spec's collision-freeness
  ("different inputs produce a different fingerprint with overwhelming
  probability") take it as a hypothesis on the concrete inputs involved.
* Fallible request handlers return `Except ApiError`; thrown `APIError`s
  become `.error` values.
-/

namespace MovieDB

/-- Error identities thrown by the controller: `RESPONSE_ERROR_UNAUTHORIZED`
(from `server/constants`), `ERR_1` (JWT expired), `ERR_2` (JWT invalid or
absent), `ERR_3` (exchange-token verification rejected), and the
`ValidationFailed` bad-request error of `BaseController.validate`. -/
inductive ApiError where
  | unauthorized
  | sessionExpired
  | sessionInvalid
  | identityVerificationFailed
  | validationFailed
  deriving DecidableEq, Repr

/-- The `data` object placed inside the JWT payload by `newUserSession`. -/
structure SessionData where
  userId : String
  sessionId : String
  deriving DecidableEq, Repr

/-- JWT payload: `jsonwebtoken` stamps `iat` with the signing-time clock;
at both call sites of `newUserSession` the `timestamp` argument is that
same clock reading (`getUnixTime(new Date())`), so the model sets
`iat := timestamp`. -/
structure JwtPayload where
  iat : Int
  exp : Int
  data : SessionData
  deriving DecidableEq, Repr

/-- A signed JWT: payload plus the secret used at signing time. -/
structure SignedToken where
  payload : JwtPayload
  sig : String
  deriving DecidableEq, Repr

/-- One row of the `AppUser` table (migration
`20200327081600-create-demo-app-user.js`): BIGINT pk `id`, `extId`,
`userHash`, nullable `fullName`, nullable DATE `lastLogIn` (held as epoch
milliseconds), DATE `updatedAt` (epoch milliseconds). -/
structure AppUser where
  id : Nat
  extId : String
  userHash : String
  fullName : Option String
  lastLogIn : Option Int
  updatedAt : Int
  deriving DecidableEq, Repr

/-- The user directory: the `AppUser` table as a list of rows. -/
abbrev Store := List AppUser

/-- Process configuration used by the controller (`this.config.client`).
`jwtLifetimeMs` is `ms(jwtLifetime)`, the configured token lifetime in
milliseconds.  `newUserSession` computes `expiredAt` as
`timestamp + durationMs / 1000`; the model uses integer division, which
agrees with the JS real division whenever the configured lifetime is a
whole number of seconds (`1000 ∣ jwtLifetimeMs`). -/
structure Config where
  appSecret : String
  sessionIdSecret : String
  jwtSecret : String
  jwtLifetimeMs : Int
  deriving Repr

/-- Injected components (`this.components`): `Common.hmac` is defined in
`server/components/common.js`, outside these sources, so it stays an
abstract keyed function `hmac message secret`. -/
structure Components where
  hmac : String → String → String

/-- `getUnixTime(t) = Math.round(t.getTime() / 1000)`: epoch milliseconds
to rounded epoch seconds.  `Math.round x = ⌊x + 1/2⌋`, so the model is
`⌊(millis + 500) / 1000⌋` with floor division. -/
def getUnixTime (millis : Int) : Int :=
  (millis + 500).fdiv 1000

/-- `createSessionId(userExtId, lastLogInMillis)`: the session fingerprint
`hmac(userExtId + "-" + lastLogInMillis, sessionIdSecret)`. -/
def createSessionId (comps : Components) (cfg : Config)
    (userExtId : String) (lastLogIn : Int) : String :=
  comps.hmac (userExtId ++ "-" ++ toString lastLogIn) cfg.sessionIdSecret

/-- `AppUser.update(fields, {where: {id}})`: rewrite every row whose `id`
matches. -/
def updateWhereId (st : Store) (uid : Nat) (f : AppUser → AppUser) : Store :=
  st.map fun u => if u.id = uid then f u else u

/-- `AppUser.findOne({where: {extId}})`: first row with that `extId`. -/
def findByExtId (st : Store) (e : String) : Option AppUser :=
  st.find? fun u => u.extId == e

/-- `AppUser.findByPk(id)`: first row with that primary key. -/
def findByPk (st : Store) (i : Nat) : Option AppUser :=
  st.find? fun u => u.id == i

/-- `verifyJWT(token)`: `jwt.verify(token, jwtSecret, cb)`.  An absent or
malformed token, or a signature under a different secret, rejects with
`ERR_2` (`sessionInvalid`); a well-signed token whose `exp` is not in the
future of the clock (`clockTimestamp >= exp`) rejects with `ERR_1`
(`sessionExpired`); otherwise the payload is returned. -/
def verifyJWT (cfg : Config) (token : Option SignedToken) (now : Int) :
    Except ApiError JwtPayload :=
  match token with
  | none => .error .sessionInvalid
  | some t =>
    if t.sig = cfg.jwtSecret then
      if t.payload.exp ≤ now then .error .sessionExpired
      else .ok t.payload
    else .error .sessionInvalid

/-- The `{token, expiredAt}` result of `newUserSession`. -/
structure UserSession where
  token : SignedToken
  expiredAt : Int
  deriving DecidableEq, Repr

/-- The `{id, extId}` payload returned by `validateUserSession`. -/
structure UserAccess where
  id : Nat
  extId : String
  deriving DecidableEq, Repr

/-- The field rewrite of `newUserSession`'s `update` call:
`{lastLogIn: timestamp * 1000, updatedAt: timestamp * 1000}`. -/
def mintFields (timestamp : Int) (u : AppUser) : AppUser :=
  { u with lastLogIn := some (timestamp * 1000), updatedAt := timestamp * 1000 }

/-- The field rewrite of `handleLogOut`'s `update` call:
`{lastLogIn: null, updatedAt: new Date()}` (the clock in milliseconds). -/
def logOutFields (nowMillis : Int) (u : AppUser) : AppUser :=
  { u with lastLogIn := none, updatedAt := nowMillis }

/-- `newUserSession(userId, userExtId, timestamp)`: writes
`lastLogIn = timestamp * 1000, updatedAt = timestamp * 1000` to the row
`userId`, derives the session id from `(userExtId, timestamp)`, and signs
`{exp: timestamp + ms(jwtLifetime)/1000, data: {userId, sessionId}}`
with the JWT secret.  Returns the updated store with `{token, expiredAt}`. -/
def newUserSession (cfg : Config) (comps : Components) (st : Store)
    (userId : Nat) (userExtId : String) (timestamp : Int) :
    Store × UserSession :=
  let st1 := updateWhereId st userId (mintFields timestamp)
  let sessionId := createSessionId comps cfg userExtId timestamp
  let expiredAt := timestamp + cfg.jwtLifetimeMs / 1000
  let tok : SignedToken :=
    { payload := { iat := timestamp, exp := expiredAt,
                   data := { userId := userExtId, sessionId := sessionId } },
      sig := cfg.jwtSecret }
  (st1, { token := tok, expiredAt := expiredAt })

/-- The last-login marker recomputed during validation: `-1` when
`lastLogIn` is unset (logged out / never logged in), otherwise
`getUnixTime(lastLogIn)` in whole seconds. -/
def lastLogInMarker (u : AppUser) : Int :=
  match u.lastLogIn with
  | none => -1
  | some m => getUnixTime m

/-- `validateUserSession(userAccessToken)`: verify the JWT, look the user
up by the payload's `userId` (= `extId`), recompute the session id from
the stored `lastLogIn` (marker `-1` when unset, else
`getUnixTime(lastLogIn)`), and compare it to the payload's `sessionId`. -/
def validateUserSession (cfg : Config) (comps : Components) (st : Store)
    (token : Option SignedToken) (now : Int) : Except ApiError UserAccess :=
  match verifyJWT cfg token now with
  | .error e => .error e
  | .ok payload =>
    match findByExtId st payload.data.userId with
    | none => .error .unauthorized
    | some user =>
      let currentSessionId := createSessionId comps cfg user.extId (lastLogInMarker user)
      if currentSessionId = payload.data.sessionId then
        .ok { id := user.id, extId := user.extId }
      else
        .error .unauthorized

/-- `handleLogOut`: try to validate the presented token; on failure, log
and return success without touching the store; on success, write
`lastLogIn = null, updatedAt = new Date()` to the caller's row.  `now` is
the request clock in epoch seconds, so `new Date()` is `now * 1000`. -/
def handleLogOut (cfg : Config) (comps : Components) (st : Store)
    (token : Option SignedToken) (now : Int) : Except ApiError Store :=
  match validateUserSession cfg comps st token now with
  | .error _ => .ok st
  | .ok session =>
    .ok (updateWhereId st session.id (logOutFields (now * 1000)))

/-- Body of a profile-update request; a missing (undefined) `fullName`
field is `none`. -/
structure UpdateProfileBody where
  fullName : Option String
  deriving DecidableEq, Repr

/-- `handleUpdateProfile`: issues
`AppUser.update({fullName: body.fullName}, {where: {id}})` with no
validation of the body.  Sequelize 5's `Model.update` strips `undefined`
values, so an absent display-name field writes nothing and leaves the
row unchanged; a present field is written through. -/
def handleUpdateProfile (st : Store) (userId : Nat)
    (body : UpdateProfileBody) : Except ApiError Store :=
  .ok (updateWhereId st userId fun u =>
    match body.fullName with
    | none => u
    | some name => { u with fullName := some name })

/-- `handleRefreshSession`: mints a new session for the already-validated
caller at the current clock. -/
def handleRefreshSession (cfg : Config) (comps : Components) (st : Store)
    (userAccess : UserAccess) (now : Int) : Except ApiError (Store × UserSession) :=
  .ok (newUserSession cfg comps st userAccess.id userAccess.extId now)

/-- The humanID identity verifier as an oracle: an exchange token maps to
`some userHash` when the remote call answers `{success: true, data:
{userHash}}`, and to `none` on any failure response. -/
abbrev IdVerifier := String → Option String

/-- `verifyExchangeToken`: call the verifier; a failure response throws
`ERR_3` (`identityVerificationFailed`), success yields the user hash. -/
def verifyExchangeToken (verifier : IdVerifier) (exchangeToken : String) :
    Except ApiError String :=
  match verifier exchangeToken with
  | none => .error .identityVerificationFailed
  | some userHash => .ok userHash

/-- Body of a login request; a missing `exchangeToken` field is `none`. -/
structure LogInBody where
  exchangeToken : Option String
  deriving DecidableEq, Repr

/-- Modelled from the spec: `BaseController.validate` (in
`server/controllers/base.js`, absent from these sources) — "required
input fields missing (e.g. missing exchange token on login)" fail with
`ValidationFailed`.  `handleLogIn` calls it as
`this.validate({exchangeToken: 'required'}, body)`. -/
def validateRequiredExchangeToken (body : LogInBody) : Except ApiError String :=
  match body.exchangeToken with
  | none => .error .validationFailed
  | some t => .ok t

/-- `generateExtId()`: the current epoch seconds printed as a decimal
string. -/
def generateExtId (nowSeconds : Int) : String :=
  toString nowSeconds

/-- The next auto-increment primary key: one more than the largest id. -/
def nextId (st : Store) : Nat :=
  (st.map AppUser.id).foldr max 0 + 1

/-- `AppUser.findOrCreate({where: {userHash}, defaults})`: return the
first row with that hash, or append `defaults` and return it. -/
def findOrCreate (st : Store) (userHash : String) (defaults : AppUser) :
    Store × AppUser :=
  match st.find? (fun u => u.userHash == userHash) with
  | some u => (st, u)
  | none => (st ++ [defaults], defaults)

/-- The `defaults` record `handleLogIn` hands to `findOrCreate`: a fresh
auto-increment id, `extId = generateExtId(now)`, the verified hash, and a
random docker-style display name (`freshName`). -/
def logInDefaults (st : Store) (userHash freshName : String) (now : Int) : AppUser :=
  { id := nextId st, extId := generateExtId now, userHash := userHash,
    fullName := some freshName, lastLogIn := none, updatedAt := now * 1000 }

/-- `handleLogIn`: require the exchange token, verify it, find-or-create
the user by hash, then mint a session for the resolved user at `now`. -/
def handleLogIn (cfg : Config) (comps : Components) (verifier : IdVerifier)
    (freshName : String) (st : Store) (body : LogInBody) (now : Int) :
    Except ApiError (Store × UserSession) :=
  match validateRequiredExchangeToken body with
  | .error e => .error e
  | .ok exchangeToken =>
    match verifyExchangeToken verifier exchangeToken with
    | .error e => .error e
    | .ok userHash =>
      let found := findOrCreate st userHash (logInDefaults st userHash freshName now)
      .ok (newUserSession cfg comps found.1 found.2.id found.2.extId now)

/-- The POST `/users/log-in` chain: `handleValidateClientApp` rejects with
`Unauthorized` unless the `clientSecret` header strictly equals
`config.client.appSecret`, then `handleLogIn` runs. -/
def logInRoute (cfg : Config) (comps : Components) (verifier : IdVerifier)
    (freshName : String) (st : Store) (clientSecret : Option String)
    (body : LogInBody) (now : Int) : Except ApiError (Store × UserSession) :=
  if clientSecret = some cfg.appSecret then
    handleLogIn cfg comps verifier freshName st body now
  else
    .error .unauthorized

/-- Deterministic example configuration used to instantiate theorems with
hypotheses at concrete inputs. -/
def cfgEx : Config :=
  { appSecret := "app-secret", sessionIdSecret := "sid-secret",
    jwtSecret := "jwt-secret", jwtLifetimeMs := 3600000 }

/-- Example components: a concrete injective keyed function standing in
for `Common.hmac`. -/
def compsEx : Components :=
  { hmac := fun raw secret => raw ++ "#" ++ secret }

/-- Example user row. -/
def userEx : AppUser :=
  { id := 1, extId := "1589009542", userHash := "h1",
    fullName := some "Boring Banach",
    lastLogIn := some 1589009542000, updatedAt := 1589009542000 }

/-- Example store holding just `userEx`. -/
def stEx : Store := [userEx]

/-- Example token signed with the right secret but already expired. -/
def tokExpiredEx : SignedToken :=
  { payload := { iat := 0, exp := 10,
                 data := { userId := "1589009542", sessionId := "s" } },
    sig := "jwt-secret" }

/-- Example token signed with a wrong secret. -/
def tokForgedEx : SignedToken :=
  { payload := { iat := 0, exp := 99999999999,
                 data := { userId := "1589009542", sessionId := "s" } },
    sig := "not-the-jwt-secret" }

/-! ### Helper lemmas -/

/-- Storing a whole-second timestamp as milliseconds and reading it back
through `getUnixTime` recovers the timestamp. -/
theorem getUnixTime_mul_thousand (t : Int) : getUnixTime (t * 1000) = t := by
  unfold getUnixTime
  rw [Int.fdiv_eq_ediv _ (by norm_num)]
  omega

/-- With pairwise-distinct `extId`s, `findOne` by `extId` returns exactly
the member row. -/
theorem findByExtId_of_nodup (st : Store) (u : AppUser)
    (hn : (st.map AppUser.extId).Nodup) (hu : u ∈ st) :
    findByExtId st u.extId = some u := by
  induction st with
  | nil => cases hu
  | cons a tl ih =>
    rw [List.map_cons, List.nodup_cons] at hn
    rcases List.mem_cons.mp hu with rfl | hmem
    · unfold findByExtId
      simp [List.find?]
    · have ha : ¬ a.extId = u.extId := by
        intro hcontra
        exact hn.1 (hcontra ▸ List.mem_map_of_mem AppUser.extId hmem)
      have ha' : (a.extId == u.extId) = false := by simp [ha]
      have htl := ih hn.2 hmem
      unfold findByExtId at htl ⊢
      simp [List.find?, ha', htl]

/-- `update ... where id` commutes with `findOne` by `extId` when the
update does not change `extId`. -/
theorem findByExtId_updateWhereId (st : Store) (uid : Nat)
    (f : AppUser → AppUser) (e : String)
    (hf : ∀ v, (f v).extId = v.extId) :
    findByExtId (updateWhereId st uid f) e =
      (findByExtId st e).map fun v => if v.id = uid then f v else v := by
  induction st with
  | nil => rfl
  | cons a tl ih =>
    have hga : (if a.id = uid then f a else a).extId = a.extId := by
      by_cases hid : a.id = uid <;> simp [hid, hf]
    unfold findByExtId updateWhereId at ih ⊢
    by_cases hpa : a.extId = e
    · simp [List.find?, hga, hpa]
    · simp only [List.map_cons, List.find?]
      rw [show ((if a.id = uid then f a else a).extId == e) = false by
            simp [hga, hpa],
          show (a.extId == e) = false by simp [hpa]]
      exact ih

/-- `mintFields` keeps the row's `extId`. -/
theorem mintFields_extId (t : Int) (v : AppUser) : (mintFields t v).extId = v.extId :=
  rfl

/-- `logOutFields` keeps the row's `extId`. -/
theorem logOutFields_extId (n : Int) (v : AppUser) : (logOutFields n v).extId = v.extId :=
  rfl

/-- The marker recovered from a freshly minted row is the mint timestamp. -/
theorem lastLogInMarker_mintFields (t : Int) (u : AppUser) :
    lastLogInMarker (mintFields t u) = t := by
  unfold lastLogInMarker mintFields
  exact getUnixTime_mul_thousand t

/-- The marker recovered from a logged-out row is the `-1` sentinel. -/
theorem lastLogInMarker_logOutFields (n : Int) (u : AppUser) :
    lastLogInMarker (logOutFields n u) = -1 :=
  rfl

/-- Unfolding `validateUserSession` on a well-signed, unexpired token once
the directory lookup is known: the outcome is decided by comparing the
recomputed fingerprint with the embedded one. -/
theorem validateUserSession_of_found (cfg : Config) (comps : Components)
    (st : Store) (tok : SignedToken) (now : Int) (user : AppUser)
    (hsig : tok.sig = cfg.jwtSecret) (hexp : now < tok.payload.exp)
    (hfind : findByExtId st tok.payload.data.userId = some user) :
    validateUserSession cfg comps st (some tok) now =
      if createSessionId comps cfg user.extId (lastLogInMarker user) =
          tok.payload.data.sessionId then
        .ok { id := user.id, extId := user.extId }
      else
        .error .unauthorized := by
  unfold validateUserSession
  rw [show verifyJWT cfg (some tok) now = .ok tok.payload by
        simp only [verifyJWT]
        rw [if_pos hsig, if_neg (by omega : ¬ tok.payload.exp ≤ now)]]
  simp only [hfind]

/-- Looking up the user by `extId` right after `newUserSession` updated
their row yields the freshly minted row. -/
theorem findByExtId_after_mint (cfg : Config) (comps : Components)
    (st : Store) (u : AppUser) (t : Int)
    (hn : (st.map AppUser.extId).Nodup) (hu : u ∈ st) :
    findByExtId (newUserSession cfg comps st u.id u.extId t).1 u.extId =
      some (mintFields t u) := by
  have h1 : (newUserSession cfg comps st u.id u.extId t).1 =
      updateWhereId st u.id (mintFields t) := rfl
  rw [h1, findByExtId_updateWhereId st u.id (mintFields t) u.extId
        (fun v => rfl),
      findByExtId_of_nodup st u hn hu]
  simp

/-- An `update ... where id` that keeps `extId` keeps the store's list of
`extId`s. -/
theorem map_extId_updateWhereId (st : Store) (uid : Nat) (f : AppUser → AppUser)
    (hf : ∀ v, (f v).extId = v.extId) :
    (updateWhereId st uid f).map AppUser.extId = st.map AppUser.extId := by
  unfold updateWhereId
  rw [List.map_map]
  refine List.map_congr_left ?_
  intro v _
  by_cases h : v.id = uid <;> simp [h, hf]

/-- The freshly minted row is a member of the updated store. -/
theorem mintFields_mem (st : Store) (u : AppUser) (t : Int) (hu : u ∈ st) :
    mintFields t u ∈ updateWhereId st u.id (mintFields t) := by
  unfold updateWhereId
  refine List.mem_map.mpr ⟨u, hu, ?_⟩
  show (if u.id = u.id then mintFields t u else u) = mintFields t u
  rw [if_pos rfl]

/-- An `update ... where id` that rewrites nothing is the identity on the
store. -/
theorem updateWhereId_const (st : Store) (uid : Nat) :
    updateWhereId st uid (fun u => u) = st := by
  unfold updateWhereId
  simp

/-! ### Claim theorems -/

/-- C3: minting a session for a member user at any whole-second timestamp
stores `lastLogIn = nowSeconds * 1000`; the marker recovered from that
stored millisecond value is `nowSeconds` again, so validating the
returned token (before its expiry) succeeds and returns the user's
`{id, extId}`. -/
theorem fresh_token_roundtrip (cfg : Config) (comps : Components)
    (st : Store) (u : AppUser) (nowSeconds validateAt : Int)
    (hn : (st.map AppUser.extId).Nodup) (hu : u ∈ st)
    (hexp : validateAt < nowSeconds + cfg.jwtLifetimeMs / 1000) :
    getUnixTime (nowSeconds * 1000) = nowSeconds ∧
    validateUserSession cfg comps
        (newUserSession cfg comps st u.id u.extId nowSeconds).1
        (some (newUserSession cfg comps st u.id u.extId nowSeconds).2.token)
        validateAt
      = .ok { id := u.id, extId := u.extId } := by
  refine ⟨getUnixTime_mul_thousand nowSeconds, ?_⟩
  rw [validateUserSession_of_found cfg comps _ _ validateAt
        (mintFields nowSeconds u) rfl hexp
        (findByExtId_after_mint cfg comps st u nowSeconds hn hu),
      lastLogInMarker_mintFields]
  exact if_pos rfl

/-- C3 witness: minting for `userEx` at time 1589009600 and validating
immediately after (time 1589009601) succeeds with `userEx`'s ids, and the
marker stored in milliseconds reads back as 1589009600. -/
theorem fresh_token_roundtrip_witness :
    getUnixTime (1589009600 * 1000) = 1589009600 ∧
    validateUserSession cfgEx compsEx
        (newUserSession cfgEx compsEx stEx userEx.id userEx.extId 1589009600).1
        (some (newUserSession cfgEx compsEx stEx userEx.id userEx.extId 1589009600).2.token)
        1589009601
      = .ok { id := userEx.id, extId := userEx.extId } :=
  fresh_token_roundtrip cfgEx compsEx stEx userEx 1589009600 1589009601
    (by decide) (by decide) (by decide)

/-- C1: after a login/refresh mints token T1 for a user at `t1` and a
later login/refresh for the same user mints token T2 at `t2`, with the
two fingerprints distinct (the spec's collision-freeness of the keyed
hash), validating T1 fails with `Unauthorized` even though its expiry has
not passed, while validating T2 succeeds. -/
theorem single_active_session (cfg : Config) (comps : Components)
    (st : Store) (u : AppUser) (t1 t2 now : Int)
    (hn : (st.map AppUser.extId).Nodup) (hu : u ∈ st)
    (hfp : createSessionId comps cfg u.extId t1 ≠ createSessionId comps cfg u.extId t2)
    (hexp1 : now < t1 + cfg.jwtLifetimeMs / 1000)
    (hexp2 : now < t2 + cfg.jwtLifetimeMs / 1000) :
    validateUserSession cfg comps
        (newUserSession cfg comps (newUserSession cfg comps st u.id u.extId t1).1
          u.id u.extId t2).1
        (some (newUserSession cfg comps st u.id u.extId t1).2.token) now
      = .error .unauthorized ∧
    validateUserSession cfg comps
        (newUserSession cfg comps (newUserSession cfg comps st u.id u.extId t1).1
          u.id u.extId t2).1
        (some (newUserSession cfg comps (newUserSession cfg comps st u.id u.extId t1).1
          u.id u.extId t2).2.token) now
      = .ok { id := u.id, extId := u.extId } := by
  have hm1 : mintFields t1 u ∈ (newUserSession cfg comps st u.id u.extId t1).1 :=
    mintFields_mem st u t1 hu
  have hn1 : ((newUserSession cfg comps st u.id u.extId t1).1.map AppUser.extId).Nodup := by
    have h : (newUserSession cfg comps st u.id u.extId t1).1 =
        updateWhereId st u.id (mintFields t1) := rfl
    rw [h, map_extId_updateWhereId st u.id (mintFields t1) (fun v => rfl)]
    exact hn
  have hfind2 : findByExtId
      (newUserSession cfg comps (newUserSession cfg comps st u.id u.extId t1).1
        u.id u.extId t2).1 u.extId = some (mintFields t2 u) :=
    findByExtId_after_mint cfg comps (newUserSession cfg comps st u.id u.extId t1).1
      (mintFields t1 u) t2 hn1 hm1
  constructor
  · rw [validateUserSession_of_found cfg comps _ _ now (mintFields t2 u)
          rfl hexp1 hfind2,
        lastLogInMarker_mintFields]
    exact if_neg fun hc => hfp hc.symm
  · rw [validateUserSession_of_found cfg comps _ _ now (mintFields t2 u)
          rfl hexp2 hfind2,
        lastLogInMarker_mintFields]
    exact if_pos rfl

/-- C1 witness: minting for `userEx` at times 100 and then 200, the first
token is rejected as `Unauthorized` at time 150 (well before either
expiry) while the second validates. -/
theorem single_active_session_witness :
    validateUserSession cfgEx compsEx
        (newUserSession cfgEx compsEx (newUserSession cfgEx compsEx stEx
          userEx.id userEx.extId 100).1 userEx.id userEx.extId 200).1
        (some (newUserSession cfgEx compsEx stEx userEx.id userEx.extId 100).2.token) 150
      = .error .unauthorized ∧
    validateUserSession cfgEx compsEx
        (newUserSession cfgEx compsEx (newUserSession cfgEx compsEx stEx
          userEx.id userEx.extId 100).1 userEx.id userEx.extId 200).1
        (some (newUserSession cfgEx compsEx (newUserSession cfgEx compsEx stEx
          userEx.id userEx.extId 100).1 userEx.id userEx.extId 200).2.token) 150
      = .ok { id := userEx.id, extId := userEx.extId } :=
  single_active_session cfgEx compsEx stEx userEx 100 200 150
    (by decide) (by decide) (by decide) (by decide) (by decide)

/-- C2: starting from a mint at `t` (the currently valid token), a logout
presenting that token validates, writes the unset sentinel
(`lastLogIn = null`) to the user's row, and reports success; afterwards,
any token previously minted for that user — an arbitrary well-signed
token carrying this user's `extId` and a fingerprint derived from any
marker `m` — fails validation with `Unauthorized`, even though its stated
expiry `expOld` has not passed, because the recomputed marker is the `-1`
sentinel and the fingerprints differ. -/
theorem logout_invalidation (cfg : Config) (comps : Components)
    (st : Store) (u : AppUser) (t now1 now2 m iatOld expOld : Int)
    (hn : (st.map AppUser.extId).Nodup) (hu : u ∈ st)
    (hexp1 : now1 < t + cfg.jwtLifetimeMs / 1000)
    (hexpOld : now2 < expOld)
    (hfp : createSessionId comps cfg u.extId (-1) ≠ createSessionId comps cfg u.extId m) :
    handleLogOut cfg comps (newUserSession cfg comps st u.id u.extId t).1
        (some (newUserSession cfg comps st u.id u.extId t).2.token) now1
      = .ok (updateWhereId (newUserSession cfg comps st u.id u.extId t).1 u.id
          (logOutFields (now1 * 1000))) ∧
    validateUserSession cfg comps
        (updateWhereId (newUserSession cfg comps st u.id u.extId t).1 u.id
          (logOutFields (now1 * 1000)))
        (some { payload := { iat := iatOld, exp := expOld,
                             data := { userId := u.extId,
                                       sessionId := createSessionId comps cfg u.extId m } },
                sig := cfg.jwtSecret }) now2
      = .error .unauthorized := by
  have hfind1 : findByExtId (newUserSession cfg comps st u.id u.extId t).1 u.extId =
      some (mintFields t u) :=
    findByExtId_after_mint cfg comps st u t hn hu
  have hvalid : validateUserSession cfg comps
      (newUserSession cfg comps st u.id u.extId t).1
      (some (newUserSession cfg comps st u.id u.extId t).2.token) now1
      = .ok { id := u.id, extId := u.extId } := by
    rw [validateUserSession_of_found cfg comps _ _ now1 (mintFields t u)
          rfl hexp1 hfind1,
        lastLogInMarker_mintFields]
    exact if_pos rfl
  have hfind2 : findByExtId
      (updateWhereId (newUserSession cfg comps st u.id u.extId t).1 u.id
        (logOutFields (now1 * 1000))) u.extId
      = some (logOutFields (now1 * 1000) (mintFields t u)) := by
    rw [findByExtId_updateWhereId _ u.id (logOutFields (now1 * 1000)) u.extId
          (fun v => rfl),
        hfind1]
    simp [mintFields]
  constructor
  · unfold handleLogOut
    rw [hvalid]
  · rw [validateUserSession_of_found cfg comps _ _ now2
          (logOutFields (now1 * 1000) (mintFields t u)) rfl hexpOld hfind2,
        lastLogInMarker_logOutFields]
    exact if_neg hfp

/-- C2 witness: mint for `userEx` at time 100, log out at time 150; the
token minted at 100 (expiry 3700) is then rejected as `Unauthorized` at
time 200. -/
theorem logout_invalidation_witness :
    handleLogOut cfgEx compsEx (newUserSession cfgEx compsEx stEx
        userEx.id userEx.extId 100).1
        (some (newUserSession cfgEx compsEx stEx userEx.id userEx.extId 100).2.token) 150
      = .ok (updateWhereId (newUserSession cfgEx compsEx stEx
          userEx.id userEx.extId 100).1 userEx.id (logOutFields (150 * 1000))) ∧
    validateUserSession cfgEx compsEx
        (updateWhereId (newUserSession cfgEx compsEx stEx
          userEx.id userEx.extId 100).1 userEx.id (logOutFields (150 * 1000)))
        (some { payload := { iat := 100, exp := 3700,
                             data := { userId := userEx.extId,
                                       sessionId := createSessionId compsEx cfgEx
                                         userEx.extId 100 } },
                sig := cfgEx.jwtSecret }) 200
      = .error .unauthorized :=
  logout_invalidation cfgEx compsEx stEx userEx 100 150 200 100 100 3700
    (by decide) (by decide) (by decide) (by decide) (by decide)

/-- C4: a well-signed token whose embedded `exp` is strictly in the past
at validation time fails `validateUserSession` with the expired-session
error `ERR_1`, for every user-directory state — in particular before any
lookup or fingerprint comparison happens, and even when the embedded
fingerprint matches current state. -/
theorem validate_expired_precedence (cfg : Config) (comps : Components)
    (tok : SignedToken) (now : Int)
    (hsig : tok.sig = cfg.jwtSecret) (hexp : tok.payload.exp < now) :
    ∀ st : Store,
      validateUserSession cfg comps st (some tok) now = .error .sessionExpired := by
  intro st
  simp only [validateUserSession, verifyJWT]
  rw [if_pos hsig, if_pos (by omega : tok.payload.exp ≤ now)]

/-- C4 witness: the expired token `tokExpiredEx` is rejected as expired at
time 100 on the example store. -/
theorem validate_expired_precedence_witness :
    validateUserSession cfgEx compsEx stEx (some tokExpiredEx) 100 =
      .error .sessionExpired :=
  validate_expired_precedence cfgEx compsEx tokExpiredEx 100 rfl (by decide) stEx

/-- C10: a token that is absent, or whose signature was not produced with
the configured JWT secret, is rejected by `validateUserSession` as
`sessionInvalid` (`ERR_2`) for every user-directory state, so the outcome
on such tokens is identical for any two directory states. -/
theorem validate_forged_noninterference (cfg : Config) (comps : Components)
    (token : Option SignedToken) (now : Int)
    (hbad : ∀ t, token = some t → ¬ t.sig = cfg.jwtSecret) :
    (∀ st : Store,
      validateUserSession cfg comps st token now = .error .sessionInvalid) ∧
    (∀ st1 st2 : Store,
      validateUserSession cfg comps st1 token now =
        validateUserSession cfg comps st2 token now) := by
  have h : ∀ st : Store,
      validateUserSession cfg comps st token now = .error .sessionInvalid := by
    intro st
    cases token with
    | none => rfl
    | some t =>
      simp only [validateUserSession, verifyJWT]
      rw [if_neg (hbad t rfl)]
  exact ⟨h, fun s1 s2 => (h s1).trans (h s2).symm⟩

/-- C10 witness: the forged token `tokForgedEx` is rejected as invalid on
the example store, with the store-independence conjunct instantiated. -/
theorem validate_forged_noninterference_witness :
    (∀ st : Store,
      validateUserSession cfgEx compsEx st (some tokForgedEx) 0 =
        .error .sessionInvalid) ∧
    (∀ st1 st2 : Store,
      validateUserSession cfgEx compsEx st1 (some tokForgedEx) 0 =
        validateUserSession cfgEx compsEx st2 (some tokForgedEx) 0) :=
  validate_forged_noninterference cfgEx compsEx (some tokForgedEx) 0
    (by intro t ht; injection ht with h; subst h; decide)

/-- C5: when validating the presented token fails with any error,
`handleLogOut` writes nothing to the user directory and still reports
success to the caller. -/
theorem logout_silent_on_invalid_session (cfg : Config) (comps : Components)
    (st : Store) (token : Option SignedToken) (now : Int) (e : ApiError)
    (h : validateUserSession cfg comps st token now = .error e) :
    handleLogOut cfg comps st token now = .ok st := by
  unfold handleLogOut
  rw [h]

/-- C5 witness: logging out with an absent token (whose validation fails
with `sessionInvalid`) leaves the example store unchanged and succeeds. -/
theorem logout_silent_on_invalid_session_witness :
    handleLogOut cfgEx compsEx stEx none 0 = .ok stEx :=
  logout_silent_on_invalid_session cfgEx compsEx stEx none 0 .sessionInvalid rfl

/-- C6: a login request whose `clientSecret` header differs from the
configured application secret is rejected with `Unauthorized` for every
identity-verifier oracle — the verifier is never consulted. -/
theorem login_client_secret_gate (cfg : Config) (comps : Components)
    (freshName : String) (st : Store) (clientSecret : Option String)
    (body : LogInBody) (now : Int)
    (h : clientSecret ≠ some cfg.appSecret) :
    ∀ verifier : IdVerifier,
      logInRoute cfg comps verifier freshName st clientSecret body now =
        .error .unauthorized := by
  intro verifier
  unfold logInRoute
  rw [if_neg h]

/-- C6 witness: a wrong client secret is rejected on the example store,
here instantiated at a concrete verifier oracle that would accept
`"tok-A"`. -/
theorem login_client_secret_gate_witness :
    logInRoute cfgEx compsEx (fun s => if s = "tok-A" then some "h1" else none)
        "Fresh Name" stEx (some "wrong-secret")
        { exchangeToken := some "tok-A" } 0 = .error .unauthorized :=
  login_client_secret_gate cfgEx compsEx "Fresh Name" stEx (some "wrong-secret")
    { exchangeToken := some "tok-A" } 0 (by decide)
    (fun s => if s = "tok-A" then some "h1" else none)

/-- C8: for a configured lifetime that is a whole number of seconds, the
session minted by `newUserSession` carries a signed payload embedding the
issue time, an expiry equal to `issuedAt + ttl` seconds, and data fields
`{userId := externalId, sessionId := fingerprint}`; the `expiredAt`
returned alongside the token equals the embedded expiry. -/
theorem newUserSession_token_construction (cfg : Config) (comps : Components)
    (st : Store) (uid : Nat) (userExtId : String) (t : Int)
    (hdvd : (1000 : Int) ∣ cfg.jwtLifetimeMs) :
    ∃ ttlSeconds : Int,
      cfg.jwtLifetimeMs = 1000 * ttlSeconds ∧
      (newUserSession cfg comps st uid userExtId t).2.token.payload.iat = t ∧
      (newUserSession cfg comps st uid userExtId t).2.token.payload.exp =
        t + ttlSeconds ∧
      (newUserSession cfg comps st uid userExtId t).2.token.payload.data.userId =
        userExtId ∧
      (newUserSession cfg comps st uid userExtId t).2.token.payload.data.sessionId =
        createSessionId comps cfg userExtId t ∧
      (newUserSession cfg comps st uid userExtId t).2.token.sig = cfg.jwtSecret ∧
      (newUserSession cfg comps st uid userExtId t).2.expiredAt =
        (newUserSession cfg comps st uid userExtId t).2.token.payload.exp := by
  obtain ⟨c, hc⟩ := hdvd
  refine ⟨c, hc, rfl, ?_, rfl, rfl, rfl, rfl⟩
  show t + cfg.jwtLifetimeMs / 1000 = t + c
  rw [hc, Int.mul_ediv_cancel_left _ (by norm_num)]

/-- C8 witness: token construction at a concrete mint for `userEx` at
time 1589009542 under the example configuration (lifetime 3600 s). -/
theorem newUserSession_token_construction_witness :
    ∃ ttlSeconds : Int,
      cfgEx.jwtLifetimeMs = 1000 * ttlSeconds ∧
      (newUserSession cfgEx compsEx stEx 1 "1589009542" 1589009542).2.token.payload.iat =
        1589009542 ∧
      (newUserSession cfgEx compsEx stEx 1 "1589009542" 1589009542).2.token.payload.exp =
        1589009542 + ttlSeconds ∧
      (newUserSession cfgEx compsEx stEx 1 "1589009542" 1589009542).2.token.payload.data.userId =
        "1589009542" ∧
      (newUserSession cfgEx compsEx stEx 1 "1589009542" 1589009542).2.token.payload.data.sessionId =
        createSessionId compsEx cfgEx "1589009542" 1589009542 ∧
      (newUserSession cfgEx compsEx stEx 1 "1589009542" 1589009542).2.token.sig =
        cfgEx.jwtSecret ∧
      (newUserSession cfgEx compsEx stEx 1 "1589009542" 1589009542).2.expiredAt =
        (newUserSession cfgEx compsEx stEx 1 "1589009542" 1589009542).2.token.payload.exp :=
  newUserSession_token_construction cfgEx compsEx stEx 1 "1589009542" 1589009542
    (by decide)

/-- C9 counterexample: an update-profile request whose body is missing
the display-name field does not fail with `ValidationFailed`; it reports
success and (Sequelize stripping the undefined value) leaves the example
store unchanged. -/
theorem updateProfile_missing_name_counterexample :
    handleUpdateProfile stEx 1 { fullName := none } = .ok stEx ∧
    handleUpdateProfile stEx 1 { fullName := none } ≠
      .error .validationFailed := by
  constructor
  · show Except.ok (updateWhereId stEx 1 fun u => u) = Except.ok stEx
    rw [updateWhereId_const]
  · intro h
    exact Except.noConfusion h

/-- C9 amended: `handleUpdateProfile` performs no input validation at
all — for every store, caller and body it succeeds (never failing with
`ValidationFailed`), writing the display name through exactly when the
body carries one; in particular a request with the display-name field
missing leaves the store unchanged, since Sequelize strips the undefined
value from the update. -/
theorem updateProfile_never_validates (st : Store) (userId : Nat)
    (body : UpdateProfileBody) :
    handleUpdateProfile st userId body =
      .ok (updateWhereId st userId fun u =>
        match body.fullName with
        | none => u
        | some name => { u with fullName := some name }) ∧
    handleUpdateProfile st userId { fullName := none } = .ok st := by
  constructor
  · rfl
  · show Except.ok (updateWhereId st userId fun u => u) = Except.ok st
    rw [updateWhereId_const]

/-- `findOne` by `userHash` misses when no row carries the hash. -/
theorem find?_userHash_none (st : Store) (h : String)
    (hall : ∀ u ∈ st, u.userHash ≠ h) :
    st.find? (fun u => u.userHash == h) = none := by
  rw [List.find?_eq_none]
  intro x hx
  simp [hall x hx]

/-- After appending a fresh row with the hash and rewriting some row by
id (hash-preserving), `findOne` by `userHash` returns the (possibly
rewritten) appended row. -/
theorem find?_userHash_update_append (st : Store) (d : AppUser) (uid : Nat)
    (f : AppUser → AppUser) (h : String)
    (hall : ∀ u ∈ st, u.userHash ≠ h)
    (hf : ∀ v, (f v).userHash = v.userHash) (hd : d.userHash = h) :
    (updateWhereId (st ++ [d]) uid f).find? (fun u => u.userHash == h) =
      some (if d.id = uid then f d else d) := by
  induction st with
  | nil =>
    have hcond : ((if d.id = uid then f d else d).userHash == h) = true := by
      by_cases hid : d.id = uid <;> simp [hid, hf, hd]
    unfold updateWhereId
    simp [List.find?, hcond]
  | cons a tl ih =>
    have hcond : ((if a.id = uid then f a else a).userHash == h) = false := by
      by_cases hid : a.id = uid <;> simp [hid, hf, hall a (by simp)]
    unfold updateWhereId at ih ⊢
    simp only [List.cons_append, List.map_cons, List.find?]
    rw [hcond]
    exact ih fun u hu => hall u (by simp [hu])

/-- Rewriting rows by id with a function preserving `userHash`, `id` and
`extId` does not change the `(id, extId)` pairs of the rows carrying a
given hash. -/
theorem filterHash_map_updateWhereId (st : Store) (uid : Nat)
    (f : AppUser → AppUser) (h : String)
    (hf : ∀ v, (f v).userHash = v.userHash ∧ (f v).id = v.id ∧ (f v).extId = v.extId) :
    ((updateWhereId st uid f).filter (fun u => u.userHash == h)).map
        (fun u => (u.id, u.extId)) =
      (st.filter (fun u => u.userHash == h)).map (fun u => (u.id, u.extId)) := by
  induction st with
  | nil => rfl
  | cons a tl ih =>
    have hhash : (if a.id = uid then f a else a).userHash = a.userHash := by
      by_cases hid : a.id = uid <;> simp [hid, (hf a).1]
    have hid2 : (if a.id = uid then f a else a).id = a.id := by
      by_cases hid : a.id = uid <;> simp [hid, (hf a).2.1]
    have hext : (if a.id = uid then f a else a).extId = a.extId := by
      by_cases hid : a.id = uid <;> simp [hid, (hf a).2.2]
    unfold updateWhereId at ih ⊢
    simp only [List.map_cons, List.filter]
    rw [hhash]
    cases hpa : (a.userHash == h) with
    | true => simp only [List.map_cons, hid2, hext, ih]
    | false => exact ih

/-- In a store with no row carrying the hash, appending one fresh row
with the hash makes it the only such row. -/
theorem filterHash_map_append_fresh (st : Store) (d : AppUser) (h : String)
    (hall : ∀ u ∈ st, u.userHash ≠ h) (hd : d.userHash = h) :
    ((st ++ [d]).filter (fun u => u.userHash == h)).map (fun u => (u.id, u.extId)) =
      [(d.id, d.extId)] := by
  induction st with
  | nil => simp [List.filter, hd]
  | cons a tl ih =>
    have ha : (a.userHash == h) = false := by simp [hall a (by simp)]
    simp only [List.cons_append, List.filter]
    rw [ha]
    exact ih fun u hu => hall u (by simp [hu])

/-- C7: two logins whose exchange tokens verify to the same (previously
unseen) identity handle resolve to the same user: the first creates a
row with a fresh `(id, extId)`, the second finds that same row; after
both logins exactly one row carries the handle, with the same
`(id, extId)`, and both minted tokens embed that same `extId`. -/
theorem login_find_or_create_idempotent (cfg : Config) (comps : Components)
    (v : IdVerifier) (name1 name2 : String) (st : Store)
    (tok1 tok2 h : String) (now1 now2 : Int)
    (hv1 : v tok1 = some h) (hv2 : v tok2 = some h)
    (hall : ∀ u ∈ st, u.userHash ≠ h) :
    ∃ st1 s1 st2 s2,
      handleLogIn cfg comps v name1 st { exchangeToken := some tok1 } now1 =
        .ok (st1, s1) ∧
      handleLogIn cfg comps v name2 st1 { exchangeToken := some tok2 } now2 =
        .ok (st2, s2) ∧
      (st1.filter (fun u => u.userHash == h)).map (fun u => (u.id, u.extId)) =
        [(nextId st, generateExtId now1)] ∧
      (st2.filter (fun u => u.userHash == h)).map (fun u => (u.id, u.extId)) =
        [(nextId st, generateExtId now1)] ∧
      s1.token.payload.data.userId = generateExtId now1 ∧
      s2.token.payload.data.userId = generateExtId now1 := by
  have hfc1 : findOrCreate st h (logInDefaults st h name1 now1) =
      (st ++ [logInDefaults st h name1 now1], logInDefaults st h name1 now1) := by
    unfold findOrCreate
    rw [find?_userHash_none st h hall]
  have e1 : handleLogIn cfg comps v name1 st { exchangeToken := some tok1 } now1 =
      .ok (newUserSession cfg comps (st ++ [logInDefaults st h name1 now1])
        (logInDefaults st h name1 now1).id (logInDefaults st h name1 now1).extId now1) := by
    unfold handleLogIn
    simp only [validateRequiredExchangeToken, verifyExchangeToken, hv1, hfc1]
  have hfind1 : ((newUserSession cfg comps (st ++ [logInDefaults st h name1 now1])
      (logInDefaults st h name1 now1).id (logInDefaults st h name1 now1).extId now1).1).find?
        (fun u => u.userHash == h) = some (mintFields now1 (logInDefaults st h name1 now1)) := by
    have hb := find?_userHash_update_append st (logInDefaults st h name1 now1)
      (logInDefaults st h name1 now1).id (mintFields now1) h hall (fun v => rfl) rfl
    rw [if_pos rfl] at hb
    exact hb
  have hfc2 : findOrCreate
      (newUserSession cfg comps (st ++ [logInDefaults st h name1 now1])
        (logInDefaults st h name1 now1).id (logInDefaults st h name1 now1).extId now1).1 h
      (logInDefaults
        (newUserSession cfg comps (st ++ [logInDefaults st h name1 now1])
          (logInDefaults st h name1 now1).id (logInDefaults st h name1 now1).extId now1).1
        h name2 now2) =
      ((newUserSession cfg comps (st ++ [logInDefaults st h name1 now1])
          (logInDefaults st h name1 now1).id (logInDefaults st h name1 now1).extId now1).1,
        mintFields now1 (logInDefaults st h name1 now1)) := by
    unfold findOrCreate
    rw [hfind1]
  have e2 : handleLogIn cfg comps v name2
      (newUserSession cfg comps (st ++ [logInDefaults st h name1 now1])
        (logInDefaults st h name1 now1).id (logInDefaults st h name1 now1).extId now1).1
      { exchangeToken := some tok2 } now2 =
      .ok (newUserSession cfg comps
        (newUserSession cfg comps (st ++ [logInDefaults st h name1 now1])
          (logInDefaults st h name1 now1).id (logInDefaults st h name1 now1).extId now1).1
        (mintFields now1 (logInDefaults st h name1 now1)).id
        (mintFields now1 (logInDefaults st h name1 now1)).extId now2) := by
    unfold handleLogIn
    simp only [validateRequiredExchangeToken, verifyExchangeToken, hv2, hfc2]
  have f1 : (((newUserSession cfg comps (st ++ [logInDefaults st h name1 now1])
      (logInDefaults st h name1 now1).id (logInDefaults st h name1 now1).extId now1).1).filter
        (fun u => u.userHash == h)).map (fun u => (u.id, u.extId)) =
      [(nextId st, generateExtId now1)] := by
    show ((updateWhereId (st ++ [logInDefaults st h name1 now1])
        (logInDefaults st h name1 now1).id (mintFields now1)).filter
          (fun u => u.userHash == h)).map (fun u => (u.id, u.extId)) = _
    rw [filterHash_map_updateWhereId (st ++ [logInDefaults st h name1 now1])
          (logInDefaults st h name1 now1).id (mintFields now1) h
          (fun v => ⟨rfl, rfl, rfl⟩),
        filterHash_map_append_fresh st (logInDefaults st h name1 now1) h hall rfl]
    rfl
  have f2 : (((newUserSession cfg comps
      (newUserSession cfg comps (st ++ [logInDefaults st h name1 now1])
        (logInDefaults st h name1 now1).id (logInDefaults st h name1 now1).extId now1).1
      (mintFields now1 (logInDefaults st h name1 now1)).id
      (mintFields now1 (logInDefaults st h name1 now1)).extId now2).1).filter
        (fun u => u.userHash == h)).map (fun u => (u.id, u.extId)) =
      [(nextId st, generateExtId now1)] := by
    show ((updateWhereId
        (newUserSession cfg comps (st ++ [logInDefaults st h name1 now1])
          (logInDefaults st h name1 now1).id (logInDefaults st h name1 now1).extId now1).1
        (mintFields now1 (logInDefaults st h name1 now1)).id (mintFields now2)).filter
          (fun u => u.userHash == h)).map (fun u => (u.id, u.extId)) = _
    rw [filterHash_map_updateWhereId
          (newUserSession cfg comps (st ++ [logInDefaults st h name1 now1])
            (logInDefaults st h name1 now1).id (logInDefaults st h name1 now1).extId now1).1
          (mintFields now1 (logInDefaults st h name1 now1)).id (mintFields now2) h
          (fun v => ⟨rfl, rfl, rfl⟩)]
    exact f1
  exact ⟨_, _, _, _, e1, e2, f1, f2, rfl, rfl⟩

/-- C7 witness: on an empty store, two logins with exchange tokens
`"tok-A"` and `"tok-B"` both verifying to handle `"h1"` resolve to the
same `(id, extId)` and leave exactly one row with that handle. -/
theorem login_find_or_create_idempotent_witness :
    ∃ st1 s1 st2 s2,
      handleLogIn cfgEx compsEx
          (fun s => if s = "tok-A" ∨ s = "tok-B" then some "h1" else none)
          "Name One" [] { exchangeToken := some "tok-A" } 100 = .ok (st1, s1) ∧
      handleLogIn cfgEx compsEx
          (fun s => if s = "tok-A" ∨ s = "tok-B" then some "h1" else none)
          "Name Two" st1 { exchangeToken := some "tok-B" } 200 = .ok (st2, s2) ∧
      (st1.filter (fun u => u.userHash == "h1")).map (fun u => (u.id, u.extId)) =
        [(nextId [], generateExtId 100)] ∧
      (st2.filter (fun u => u.userHash == "h1")).map (fun u => (u.id, u.extId)) =
        [(nextId [], generateExtId 100)] ∧
      s1.token.payload.data.userId = generateExtId 100 ∧
      s2.token.payload.data.userId = generateExtId 100 :=
  login_find_or_create_idempotent cfgEx compsEx
    (fun s => if s = "tok-A" ∨ s = "tok-B" then some "h1" else none)
    "Name One" "Name Two" [] "tok-A" "tok-B" "h1" 100 200
    (by decide) (by decide) (by intro u hu; cases hu)

end MovieDB
